import Mathlib

/-!
# The expression catalogue of the AST (Source/AST/ASTExpressions.h)

A shallow embedding of the node definitions of `ASTExpressions.h` and of their
constructors, followed by the properties of the construction contracts.

Conventions of the embedding.

* Every C++ node struct `X` becomes a Lean type `X`; the stored fields keep
  their names. The base sub-object `Expression<Class>` contributes the field
  `op`, the stored operation tag.
* The C++ constructor of `X` becomes the function `X.new`, whose body repeats
  the member-initialiser list of the source.
* A template parameter `Class` becomes an index `c : TypeClassId`; the
  parameter `Type` of `Literal` becomes an index `type : TypeId`.
* Expression nodes are immutable, so a pointer to a child expression is
  modelled by the child itself. `Expression<Class>*` becomes `Expression c`,
  `UntypedExpression*` becomes `UntypedExpression`, and it becomes
  `Option UntypedExpression` at the two places where the source documents
  that the pointer may be null (`Branch::value`, `Return::value`).
* Branch targets are identified by their address, so `BranchTarget*` stays a
  pointer: an address into the arena.
* A pointer to an array becomes a list.
-/

namespace AST

/-! ## Machine integers -/

/-- The 32-bit unsigned integers. -/
abbrev uint32_t : Type := Fin (2 ^ 32)

/-- The 64-bit unsigned integers. -/
abbrev uint64_t : Type := Fin (2 ^ 64)

/-- The pointer-sized unsigned integers, on a 64-bit target. -/
abbrev uintptr_t : Type := Fin (2 ^ 64)

/-- The unsigned integers that hold an object size, on a 64-bit target. -/
abbrev size_t : Type := Fin (2 ^ 64)

/-- The integral conversion from `uint32_t` to `uintptr_t`: reduction modulo
`2 ^ 64`, as C++ prescribes for a conversion to an unsigned type. -/
def uint32_t.toUIntPtr (x : uint32_t) : uintptr_t :=
  ⟨x.val % 2 ^ 64, Nat.mod_lt _ (Nat.two_pow_pos 64)⟩

/-! ## What `AST.h` declares -/

/-- Modelled from the spec: the value categories, declared in `AST.h`, which is
not among the sources. The spec lists the closed set Int, Float, Bool, Void. -/
inductive TypeClassId where
  | Int
  | Float
  | Bool
  | Void
deriving DecidableEq, Repr

/-- Modelled from the spec: the runtime type tag `TypeId`, declared in `AST.h`,
which is not among the sources. The source stores it in `BranchTarget::type` and
`Comparison::operandType`, and `Literal` is instantiated once per type. Each tag
belongs to one category; the Int category holds several widths, one of them the
32-bit type that `CallIndirect::functionIndex` asks for. -/
inductive TypeId where
  | I8
  | I16
  | I32
  | I64
  | F32
  | F64
  | Bool
  | Void
deriving DecidableEq, Repr

/-- Modelled from the spec: the category that a type tag belongs to. -/
def TypeId.cls : TypeId → TypeClassId
  | .I8 => .Int
  | .I16 => .Int
  | .I32 => .Int
  | .I64 => .Int
  | .F32 => .Float
  | .F64 => .Float
  | .Bool => .Bool
  | .Void => .Void

/-- Modelled from the spec: the native representation `Type::NativeType` of the
values of a type, declared in `AST.h`, which is not among the sources. Integers
are unsigned numbers of the width of the type; a floating-point value is kept
as its bit pattern, because a literal only stores it. -/
def NativeType : TypeId → Type
  | .I8 => Fin (2 ^ 8)
  | .I16 => Fin (2 ^ 16)
  | .I32 => Fin (2 ^ 32)
  | .I64 => Fin (2 ^ 64)
  | .F32 => Fin (2 ^ 32)
  | .F64 => Fin (2 ^ 64)
  | .Bool => Bool
  | .Void => Unit

/-- Modelled from the spec: the names of the operation tags. The enumerations
themselves (`Class::Op`, one per category) are declared in `AST.h`, which is not
among the sources. The enumerators that `ASTExpressions.h` names are listed by
name; `other code` stands for every enumerator that this header never names and
that only a caller passes in (variable access, arithmetic, comparison,
conversion, call). -/
inductive Op where
  | lit
  | error
  | loadMemory
  | discardResult
  | nop
  | switch_
  | ifElse
  | label
  | loop
  | branch
  | ret
  | block
  | storeMemory
  | other (code : Nat)
deriving DecidableEq, Repr

/-- Modelled from the spec: the legal operation set of every category
(`category_legal_ops`), that is, which tags the enumeration `Class::Op` of the
category declares. `AST.h` is not among the sources and the spec does not list
the sets, so their content is a parameter of every definition that needs it. -/
abbrev LegalOps : Type := TypeClassId → Op → Bool

/-- Modelled from the spec: the type `Class::Op` of the tags of category `c`,
the tags that the legal operation set of `c` contains. -/
def ClassOp (category_legal_ops : LegalOps) (c : TypeClassId) : Type :=
  { op : Op // category_legal_ops c op = true }

/-- Modelled from the spec: `ErrorRecord`, declared in `AST.h`, which is not
among the sources: the diagnostic message of an error. -/
structure ErrorRecord where
  message : String
deriving DecidableEq, Repr

/-! ## Branch targets -/

/-- The record of one branch target: the type expected at the join point. -/
structure BranchTarget where
  type : TypeId
deriving DecidableEq, Repr

/-- The constructor `BranchTarget(TypeId inType)`. -/
def BranchTarget.new (inType : TypeId) : BranchTarget :=
  { type := inType }

/-- A `BranchTarget*`: the address of a record in the arena of the module. -/
structure BranchTargetPtr where
  address : Nat
deriving DecidableEq, Repr

/-- Modelled from the spec: the arena of a module (allocate, never free a
single record), which is not among the sources. Only the branch-target records
are kept, since only they are identified by their address; record number `i`
lives at address `i`. -/
structure Arena where
  branchTargets : List BranchTarget
deriving DecidableEq, Repr

/-- Modelled from the spec: an arena in which nothing has been allocated. -/
def Arena.empty : Arena :=
  { branchTargets := [] }

/-- Modelled from the spec: `new(arena) BranchTarget(inType)`, the allocation of
a branch target: the record is placed behind the records allocated so far and
its address is returned together with the arena after the allocation. -/
def Arena.newBranchTarget (arena : Arena) (inType : TypeId) : BranchTargetPtr × Arena :=
  ({ address := arena.branchTargets.length },
   { branchTargets := arena.branchTargets ++ [BranchTarget.new inType] })

/-- Modelled from the spec: reading the record behind a pointer; `none` for a
pointer that does not point into the arena. -/
def Arena.deref (arena : Arena) (target : BranchTargetPtr) : Option BranchTarget :=
  arena.branchTargets[target.address]?

/-! ## The nodes that hold no other node -/

/-- The node `Literal<Type>`. -/
structure Literal (type : TypeId) where
  op : Op
  value : NativeType type

/-- The node `Error<Class>`, an `Expression<Class>` and an `ErrorRecord`. -/
structure Error (c : TypeClassId) where
  op : Op
  record : ErrorRecord

/-- The node `LoadVariable<Class>`. -/
structure LoadVariable (c : TypeClassId) where
  op : Op
  variableIndex : uint32_t

/-- The node `Nop`, of the Void category. -/
structure Nop where
  op : Op

/-! ## The nodes that hold other nodes -/

mutual

/-- An `Expression<Class>`: a node of category `c`, whatever its kind. -/
inductive Expression : TypeClassId → Type where
  | Literal {type : TypeId} : Literal type → Expression type.cls
  | Error {c : TypeClassId} : Error c → Expression c
  | LoadVariable {c : TypeClassId} : LoadVariable c → Expression c
  | LoadMemory {c : TypeClassId} : LoadMemory c → Expression c
  | Unary {c : TypeClassId} : Unary c → Expression c
  | Binary {c : TypeClassId} : Binary c → Expression c
  | Comparison : Comparison → Expression .Bool
  | Cast {c : TypeClassId} : Cast c → Expression c
  | Call {c : TypeClassId} : Call c → Expression c
  | CallIndirect {c : TypeClassId} : CallIndirect c → Expression c
  | DiscardResult : DiscardResult → Expression .Void
  | Nop : Nop → Expression .Void
  | Switch {c : TypeClassId} : Switch c → Expression c
  | IfElse {c : TypeClassId} : IfElse c → Expression c
  | Label {c : TypeClassId} : Label c → Expression c
  | Loop {c : TypeClassId} : Loop c → Expression c
  | Branch {c : TypeClassId} : Branch c → Expression c
  | Return {c : TypeClassId} : Return c → Expression c
  | Block {c : TypeClassId} : Block c → Expression c
  | StoreVariable : StoreVariable → Expression .Void
  | StoreMemory : StoreMemory → Expression .Void

/-- An `UntypedExpression`: a node whose category the reference does not
track. The category `c` is the one the node was built with. -/
inductive UntypedExpression : Type where
  | mk (c : TypeClassId) (expression : Expression c)

/-- Modelled from the spec: the typed reference `TypedExpression`, declared in
`AST.h`, which is not among the sources: a runtime tag and an untyped
reference. -/
inductive TypedExpression : Type where
  | mk (type : TypeId) (expression : UntypedExpression)

/-- The node `LoadMemory<Class>`. -/
inductive LoadMemory : TypeClassId → Type where
  | mk {c : TypeClassId} (op : Op) (isFarAddress : Bool) (isAligned : Bool)
      (address : Expression .Int) : LoadMemory c

/-- The node `Unary<Class>`. -/
inductive Unary : TypeClassId → Type where
  | mk {c : TypeClassId} (op : Op) (operand : Expression c) : Unary c

/-- The node `Binary<Class>`. -/
inductive Binary : TypeClassId → Type where
  | mk {c : TypeClassId} (op : Op) (left : Expression c) (right : Expression c) : Binary c

/-- The node `Comparison`, of the Bool category. -/
inductive Comparison : Type where
  | mk (op : Op) (operandType : TypeId) (left : UntypedExpression)
      (right : UntypedExpression)

/-- The node `Cast<Class>`. -/
inductive Cast : TypeClassId → Type where
  | mk {c : TypeClassId} (op : Op) (source : TypedExpression) : Cast c

/-- The node `Call<Class>`. -/
inductive Call : TypeClassId → Type where
  | mk {c : TypeClassId} (op : Op) (functionIndex : uint32_t)
      (parameters : List UntypedExpression) : Call c

/-- The node `CallIndirect<Class>`. -/
inductive CallIndirect : TypeClassId → Type where
  | mk {c : TypeClassId} (op : Op) (tableIndex : uint32_t)
      (functionIndex : Expression .Int) (parameters : List UntypedExpression) :
      CallIndirect c

/-- The node `DiscardResult`, of the Void category. -/
inductive DiscardResult : Type where
  | mk (op : Op) (expression : TypedExpression)

/-- One arm of a switch. -/
inductive SwitchArm : Type where
  | mk (key : uint64_t) (value : UntypedExpression)

/-- The node `Switch<Class>`. -/
inductive Switch : TypeClassId → Type where
  | mk {c : TypeClassId} (op : Op) (key : TypedExpression) (defaultArmIndex : uintptr_t)
      (numArms : uintptr_t) (arms : List SwitchArm) (endTarget : BranchTargetPtr) :
      Switch c

/-- The node `IfElse<Class>`. -/
inductive IfElse : TypeClassId → Type where
  | mk {c : TypeClassId} (op : Op) (condition : Expression .Bool)
      (thenExpression : Expression c) (elseExpression : Expression c) : IfElse c

/-- The node `Label<Class>`. -/
inductive Label : TypeClassId → Type where
  | mk {c : TypeClassId} (op : Op) (endTarget : BranchTargetPtr)
      (expression : Expression c) : Label c

/-- The node `Loop<Class>`. -/
inductive Loop : TypeClassId → Type where
  | mk {c : TypeClassId} (op : Op) (expression : Expression .Void)
      (breakTarget : BranchTargetPtr) (continueTarget : BranchTargetPtr) : Loop c

/-- The node `Branch<Class>`. -/
inductive Branch : TypeClassId → Type where
  | mk {c : TypeClassId} (op : Op) (branchTarget : BranchTargetPtr)
      (value : Option UntypedExpression) : Branch c

/-- The node `Return<Class>`. -/
inductive Return : TypeClassId → Type where
  | mk {c : TypeClassId} (op : Op) (value : Option UntypedExpression) : Return c

/-- The node `Block<Class>`. -/
inductive Block : TypeClassId → Type where
  | mk {c : TypeClassId} (op : Op) (voidExpressions : List (Expression .Void))
      (numVoidExpressions : size_t) (resultExpression : Expression c) : Block c

/-- The node `StoreVariable`, of the Void category. -/
inductive StoreVariable : Type where
  | mk (op : Op) (value : TypedExpression) (variableIndex : uint32_t)

/-- The node `StoreMemory`, of the Void category. -/
inductive StoreMemory : Type where
  | mk (op : Op) (isFarAddress : Bool) (isAligned : Bool) (address : Expression .Int)
      (value : TypedExpression)

end

/-! ## Reading the fields of the nodes -/

/-- The category of the node behind an untyped reference. -/
def UntypedExpression.cls : UntypedExpression → TypeClassId
  | .mk c _ => c

/-- The conversion of an `Expression<Class>*` to an `UntypedExpression*`. -/
def Expression.untyped {c : TypeClassId} (expression : Expression c) : UntypedExpression :=
  .mk c expression

/-- The field `type` of a typed reference. -/
def TypedExpression.type : TypedExpression → TypeId
  | .mk type _ => type

/-- The field `expression` of a typed reference. -/
def TypedExpression.expression : TypedExpression → UntypedExpression
  | .mk _ expression => expression

/-- The message of an `Error` node, read from its `ErrorRecord`. -/
def Error.message {c : TypeClassId} (node : Error c) : String :=
  node.record.message

/-- The field `op` of `LoadMemory`. -/
def LoadMemory.op {c : TypeClassId} : LoadMemory c → Op
  | .mk op _ _ _ => op

/-- The field `address` of `LoadMemory`. -/
def LoadMemory.address {c : TypeClassId} : LoadMemory c → Expression .Int
  | .mk _ _ _ address => address

/-- The field `op` of `Unary`. -/
def Unary.op {c : TypeClassId} : Unary c → Op
  | .mk op _ => op

/-- The field `operand` of `Unary`. -/
def Unary.operand {c : TypeClassId} : Unary c → Expression c
  | .mk _ operand => operand

/-- The field `op` of `Binary`. -/
def Binary.op {c : TypeClassId} : Binary c → Op
  | .mk op _ _ => op

/-- The field `left` of `Binary`. -/
def Binary.left {c : TypeClassId} : Binary c → Expression c
  | .mk _ left _ => left

/-- The field `right` of `Binary`. -/
def Binary.right {c : TypeClassId} : Binary c → Expression c
  | .mk _ _ right => right

/-- The field `op` of `Comparison`. -/
def Comparison.op : Comparison → Op
  | .mk op _ _ _ => op

/-- The field `operandType` of `Comparison`. -/
def Comparison.operandType : Comparison → TypeId
  | .mk _ operandType _ _ => operandType

/-- The field `op` of `Cast`. -/
def Cast.op {c : TypeClassId} : Cast c → Op
  | .mk op _ => op

/-- The field `source` of `Cast`. -/
def Cast.source {c : TypeClassId} : Cast c → TypedExpression
  | .mk _ source => source

/-- The field `op` of `Call`. -/
def Call.op {c : TypeClassId} : Call c → Op
  | .mk op _ _ => op

/-- The field `functionIndex` of `Call`. -/
def Call.functionIndex {c : TypeClassId} : Call c → uint32_t
  | .mk _ functionIndex _ => functionIndex

/-- The field `parameters` of `Call`. -/
def Call.parameters {c : TypeClassId} : Call c → List UntypedExpression
  | .mk _ _ parameters => parameters

/-- The field `op` of `CallIndirect`. -/
def CallIndirect.op {c : TypeClassId} : CallIndirect c → Op
  | .mk op _ _ _ => op

/-- The field `tableIndex` of `CallIndirect`. -/
def CallIndirect.tableIndex {c : TypeClassId} : CallIndirect c → uint32_t
  | .mk _ tableIndex _ _ => tableIndex

/-- The field `functionIndex` of `CallIndirect`. -/
def CallIndirect.functionIndex {c : TypeClassId} : CallIndirect c → Expression .Int
  | .mk _ _ functionIndex _ => functionIndex

/-- The field `parameters` of `CallIndirect`. -/
def CallIndirect.parameters {c : TypeClassId} : CallIndirect c → List UntypedExpression
  | .mk _ _ _ parameters => parameters

/-- The field `op` of `DiscardResult`. -/
def DiscardResult.op : DiscardResult → Op
  | .mk op _ => op

/-- The field `expression` of `DiscardResult`. -/
def DiscardResult.expression : DiscardResult → TypedExpression
  | .mk _ expression => expression

/-- The field `key` of a switch arm. -/
def SwitchArm.key : SwitchArm → uint64_t
  | .mk key _ => key

/-- The field `value` of a switch arm. -/
def SwitchArm.value : SwitchArm → UntypedExpression
  | .mk _ value => value

/-- The field `op` of `Switch`. -/
def Switch.op {c : TypeClassId} : Switch c → Op
  | .mk op _ _ _ _ _ => op

/-- The field `key` of `Switch`. -/
def Switch.key {c : TypeClassId} : Switch c → TypedExpression
  | .mk _ key _ _ _ _ => key

/-- The field `defaultArmIndex` of `Switch`. -/
def Switch.defaultArmIndex {c : TypeClassId} : Switch c → uintptr_t
  | .mk _ _ defaultArmIndex _ _ _ => defaultArmIndex

/-- The field `numArms` of `Switch`. -/
def Switch.numArms {c : TypeClassId} : Switch c → uintptr_t
  | .mk _ _ _ numArms _ _ => numArms

/-- The field `arms` of `Switch`. -/
def Switch.arms {c : TypeClassId} : Switch c → List SwitchArm
  | .mk _ _ _ _ arms _ => arms

/-- The field `endTarget` of `Switch`. -/
def Switch.endTarget {c : TypeClassId} : Switch c → BranchTargetPtr
  | .mk _ _ _ _ _ endTarget => endTarget

/-- The field `op` of `IfElse`. -/
def IfElse.op {c : TypeClassId} : IfElse c → Op
  | .mk op _ _ _ => op

/-- The field `op` of `Label`. -/
def Label.op {c : TypeClassId} : Label c → Op
  | .mk op _ _ => op

/-- The field `op` of `Loop`. -/
def Loop.op {c : TypeClassId} : Loop c → Op
  | .mk op _ _ _ => op

/-- The field `expression` of `Loop`. -/
def Loop.expression {c : TypeClassId} : Loop c → Expression .Void
  | .mk _ expression _ _ => expression

/-- The field `breakTarget` of `Loop`. -/
def Loop.breakTarget {c : TypeClassId} : Loop c → BranchTargetPtr
  | .mk _ _ breakTarget _ => breakTarget

/-- The field `continueTarget` of `Loop`. -/
def Loop.continueTarget {c : TypeClassId} : Loop c → BranchTargetPtr
  | .mk _ _ _ continueTarget => continueTarget

/-- The field `op` of `Branch`. -/
def Branch.op {c : TypeClassId} : Branch c → Op
  | .mk op _ _ => op

/-- The field `branchTarget` of `Branch`. -/
def Branch.branchTarget {c : TypeClassId} : Branch c → BranchTargetPtr
  | .mk _ branchTarget _ => branchTarget

/-- The field `value` of `Branch`. -/
def Branch.value {c : TypeClassId} : Branch c → Option UntypedExpression
  | .mk _ _ value => value

/-- The field `op` of `Return`. -/
def Return.op {c : TypeClassId} : Return c → Op
  | .mk op _ => op

/-- The field `value` of `Return`. -/
def Return.value {c : TypeClassId} : Return c → Option UntypedExpression
  | .mk _ value => value

/-- The field `op` of `Block`. -/
def Block.op {c : TypeClassId} : Block c → Op
  | .mk op _ _ _ => op

/-- The field `voidExpressions` of `Block`. -/
def Block.voidExpressions {c : TypeClassId} : Block c → List (Expression .Void)
  | .mk _ voidExpressions _ _ => voidExpressions

/-- The field `numVoidExpressions` of `Block`. -/
def Block.numVoidExpressions {c : TypeClassId} : Block c → size_t
  | .mk _ _ numVoidExpressions _ => numVoidExpressions

/-- The field `resultExpression` of `Block`. -/
def Block.resultExpression {c : TypeClassId} : Block c → Expression c
  | .mk _ _ _ resultExpression => resultExpression

/-- The field `op` of `StoreVariable`. -/
def StoreVariable.op : StoreVariable → Op
  | .mk op _ _ => op

/-- The field `value` of `StoreVariable`. -/
def StoreVariable.value : StoreVariable → TypedExpression
  | .mk _ value _ => value

/-- The field `variableIndex` of `StoreVariable`. -/
def StoreVariable.variableIndex : StoreVariable → uint32_t
  | .mk _ _ variableIndex => variableIndex

/-- The field `op` of `StoreMemory`. -/
def StoreMemory.op : StoreMemory → Op
  | .mk op _ _ _ _ => op

/-- The field `address` of `StoreMemory`. -/
def StoreMemory.address : StoreMemory → Expression .Int
  | .mk _ _ _ address _ => address

/-- The field `value` of `StoreMemory`. -/
def StoreMemory.value : StoreMemory → TypedExpression
  | .mk _ _ _ _ value => value

/-- The operation tag that the base sub-object of a node stores. -/
def Expression.op {c : TypeClassId} : Expression c → Op
  | .Literal node => node.op
  | .Error node => node.op
  | .LoadVariable node => node.op
  | .LoadMemory node => node.op
  | .Unary node => node.op
  | .Binary node => node.op
  | .Comparison node => node.op
  | .Cast node => node.op
  | .Call node => node.op
  | .CallIndirect node => node.op
  | .DiscardResult node => node.op
  | .Nop node => node.op
  | .Switch node => node.op
  | .IfElse node => node.op
  | .Label node => node.op
  | .Loop node => node.op
  | .Branch node => node.op
  | .Return node => node.op
  | .Block node => node.op
  | .StoreVariable node => node.op
  | .StoreMemory node => node.op

/-- The operation tag of the node behind an untyped reference. -/
def UntypedExpression.op : UntypedExpression → Op
  | .mk _ expression => expression.op

/-! ## The constructors -/

/-- Modelled from the spec: the constructor of `ErrorRecord`, declared in
`AST.h`, which is not among the sources: it keeps the message it is given. -/
def ErrorRecord.new (inMessage : String) : ErrorRecord :=
  { message := inMessage }

/-- Modelled from the spec: the constructor of a typed reference, declared in
`AST.h`, which is not among the sources. The spec makes it the one place where
the tag is asserted to be the category of the referenced node; a pair that fails
the assertion is rejected (`none`). -/
def TypedExpression.new (inType : TypeId) (inExpression : UntypedExpression) :
    Option TypedExpression :=
  if inType.cls = inExpression.cls then some (.mk inType inExpression) else none

/-- The constructor `Literal(NativeType inValue)`. -/
def Literal.new (type : TypeId) (inValue : NativeType type) : Literal type :=
  { op := .lit, value := inValue }

/-- The constructor `Error(std::string&& inMessage)`. -/
def Error.new (c : TypeClassId) (inMessage : String) : Error c :=
  { op := .error, record := ErrorRecord.new inMessage }

/-- The constructor `LoadVariable(typename Class::Op inOp,uint32_t inVariableIndex)`. -/
def LoadVariable.new (category_legal_ops : LegalOps) (c : TypeClassId)
    (inOp : ClassOp category_legal_ops c) (inVariableIndex : uint32_t) : LoadVariable c :=
  { op := inOp.val, variableIndex := inVariableIndex }

/-- The constructor `LoadMemory(bool,bool,Expression<IntClass>*)`. -/
def LoadMemory.new (c : TypeClassId) (inIsFarAddress : Bool) (inIsAligned : Bool)
    (inAddress : Expression .Int) : LoadMemory c :=
  .mk .loadMemory inIsFarAddress inIsAligned inAddress

/-- The constructor `Unary(Op op,Expression<Class>* inOperand)`. -/
def Unary.new (category_legal_ops : LegalOps) (c : TypeClassId)
    (op : ClassOp category_legal_ops c) (inOperand : Expression c) : Unary c :=
  .mk op.val inOperand

/-- The constructor `Binary(Op op,Expression<Class>* inLeft,Expression<Class>* inRight)`. -/
def Binary.new (category_legal_ops : LegalOps) (c : TypeClassId)
    (op : ClassOp category_legal_ops c) (inLeft : Expression c) (inRight : Expression c) :
    Binary c :=
  .mk op.val inLeft inRight

/-- The constructor `Comparison(Op op,TypeId inOperandType,UntypedExpression* inLeft,
UntypedExpression* inRight)`; `Op` is the enumeration of the Bool category. -/
def Comparison.new (category_legal_ops : LegalOps) (op : ClassOp category_legal_ops .Bool)
    (inOperandType : TypeId) (inLeft : UntypedExpression) (inRight : UntypedExpression) :
    Comparison :=
  .mk op.val inOperandType inLeft inRight

/-- The constructor `Cast(Op op,TypedExpression inSource)`. -/
def Cast.new (category_legal_ops : LegalOps) (c : TypeClassId)
    (op : ClassOp category_legal_ops c) (inSource : TypedExpression) : Cast c :=
  .mk op.val inSource

/-- The constructor `Call(Op op,uint32_t inFunctionIndex,UntypedExpression** inParameters)`. -/
def Call.new (category_legal_ops : LegalOps) (c : TypeClassId)
    (op : ClassOp category_legal_ops c) (inFunctionIndex : uint32_t)
    (inParameters : List UntypedExpression) : Call c :=
  .mk op.val inFunctionIndex inParameters

/-- The constructor `CallIndirect(Op op,uint32_t inTableIndex,
Expression<IntClass>* inFunctionIndex,UntypedExpression** inParameters)`. -/
def CallIndirect.new (category_legal_ops : LegalOps) (c : TypeClassId)
    (op : ClassOp category_legal_ops c) (inTableIndex : uint32_t)
    (inFunctionIndex : Expression .Int) (inParameters : List UntypedExpression) :
    CallIndirect c :=
  .mk op.val inTableIndex inFunctionIndex inParameters

/-- The constructor `DiscardResult(TypedExpression inExpression)`. -/
def DiscardResult.new (inExpression : TypedExpression) : DiscardResult :=
  .mk .discardResult inExpression

/-- The constructor `Nop()`. -/
def Nop.new : Nop :=
  { op := .nop }

/-- The constructor `Switch(TypedExpression inKey,uintptr_t inDefaultArmIndex,
uint32_t inNumArms,SwitchArm* inArms,BranchTarget* inEndTarget)`. The count
arrives as a `uint32_t` and is stored in a `uintptr_t`. -/
def Switch.new (c : TypeClassId) (inKey : TypedExpression) (inDefaultArmIndex : uintptr_t)
    (inNumArms : uint32_t) (inArms : List SwitchArm) (inEndTarget : BranchTargetPtr) :
    Switch c :=
  .mk .switch_ inKey inDefaultArmIndex (uint32_t.toUIntPtr inNumArms) inArms inEndTarget

/-- The constructor `IfElse(Expression<BoolClass>*,Expression<Class>*,Expression<Class>*)`. -/
def IfElse.new (c : TypeClassId) (inCondition : Expression .Bool)
    (inThenExpression : Expression c) (inElseExpression : Expression c) : IfElse c :=
  .mk .ifElse inCondition inThenExpression inElseExpression

/-- The constructor `Label(BranchTarget* inEndTarget,Expression<Class>* inExpression)`. -/
def Label.new (c : TypeClassId) (inEndTarget : BranchTargetPtr) (inExpression : Expression c) :
    Label c :=
  .mk .label inEndTarget inExpression

/-- The constructor `Loop(Expression<VoidClass>* inExpression,BranchTarget* inBreakTarget,
BranchTarget* inContinueTarget)`. -/
def Loop.new (c : TypeClassId) (inExpression : Expression .Void)
    (inBreakTarget : BranchTargetPtr) (inContinueTarget : BranchTargetPtr) : Loop c :=
  .mk .loop inExpression inBreakTarget inContinueTarget

/-- The constructor `Branch(BranchTarget* inBranchTarget,UntypedExpression* inValue)`. -/
def Branch.new (c : TypeClassId) (inBranchTarget : BranchTargetPtr)
    (inValue : Option UntypedExpression) : Branch c :=
  .mk .branch inBranchTarget inValue

/-- The constructor `Return(UntypedExpression* inValue)`. -/
def Return.new (c : TypeClassId) (inValue : Option UntypedExpression) : Return c :=
  .mk .ret inValue

/-- The constructor `Block(Expression<VoidClass>** inVoidExpressions,
size_t inNumVoidExpressions,Expression<Class>* inResultExpression)`. -/
def Block.new (c : TypeClassId) (inVoidExpressions : List (Expression .Void))
    (inNumVoidExpressions : size_t) (inResultExpression : Expression c) : Block c :=
  .mk .block inVoidExpressions inNumVoidExpressions inResultExpression

/-- The constructor `StoreVariable(Op op,TypedExpression inValue,uint32_t inVariableIndex)`;
`Op` is the enumeration of the Void category. -/
def StoreVariable.new (category_legal_ops : LegalOps)
    (op : ClassOp category_legal_ops .Void) (inValue : TypedExpression)
    (inVariableIndex : uint32_t) : StoreVariable :=
  .mk op.val inValue inVariableIndex

/-- The constructor `StoreMemory(bool,bool,Expression<IntClass>*,TypedExpression)`. -/
def StoreMemory.new (inIsFarAddress : Bool) (inIsAligned : Bool)
    (inAddress : Expression .Int) (inValue : TypedExpression) : StoreMemory :=
  .mk .storeMemory inIsFarAddress inIsAligned inAddress inValue

/-! ## The contracts of the spec, as predicates on nodes -/

/-- The tag of a typed reference is the category of the node it refers to. -/
def TypedExpression.tagMatches (typed : TypedExpression) : Prop :=
  typed.type.cls = typed.expression.cls

instance (typed : TypedExpression) : Decidable typed.tagMatches :=
  inferInstanceAs (Decidable (typed.type.cls = typed.expression.cls))

/-- The operation tag of a node is in the legal operation set of its category. -/
def Expression.opLegal (category_legal_ops : LegalOps) {c : TypeClassId}
    (expression : Expression c) : Prop :=
  category_legal_ops c expression.op = true

instance (category_legal_ops : LegalOps) {c : TypeClassId} (expression : Expression c) :
    Decidable (expression.opLegal category_legal_ops) :=
  inferInstanceAs (Decidable (category_legal_ops c expression.op = true))

/-- Modelled from the spec: the content of the enumerations `Class::Op`, which
`AST.h` declares and which is not among the sources. The spec draws the tag of a
node from a category-specific or from a cross-category enumeration and lists
neither. The tags that the templates of the header name for an arbitrary
`Class` or `Type` (`lit`, `error`, `loadMemory`, `switch_`, `ifElse`, `label`,
`loop`, `branch`, `ret`, `block`) are taken to form the cross-category
enumeration, legal for every category; the tags that the three nodes of the
Void category name (`discardResult`, `nop`, `storeMemory`) are taken to be
specific to Void. Which further enumerators a category declares, those that
only a caller names, is not known: it is the parameter `callerOps`. -/
def declaredOps (callerOps : TypeClassId → Nat → Bool) : LegalOps := fun c op =>
  match op with
  | .lit => true
  | .error => true
  | .loadMemory => true
  | .switch_ => true
  | .ifElse => true
  | .label => true
  | .loop => true
  | .branch => true
  | .ret => true
  | .block => true
  | .discardResult => decide (c = .Void)
  | .nop => decide (c = .Void)
  | .storeMemory => decide (c = .Void)
  | .other code => callerOps c code

/-- The rule of `Branch::value` on a target record and an optional value: the
value is present exactly when the category of the target is not Void, and a
value that is present has the category of the target. -/
def branchValueRule (target : BranchTarget) (value : Option UntypedExpression) : Prop :=
  (value.isSome = true ↔ target.type.cls ≠ .Void) ∧
    ∀ v ∈ value, v.cls = target.type.cls

instance (target : BranchTarget) (value : Option UntypedExpression) :
    Decidable (branchValueRule target value) :=
  inferInstanceAs (Decidable (_ ∧ _))

/-- The rule of `Branch::value` on a node: the pointer of the node leads to a
record of the arena, and the record and the value of the node obey the rule. -/
def Branch.valueRule (arena : Arena) {c : TypeClassId} (node : Branch c) : Prop :=
  match arena.deref node.branchTarget with
  | none => False
  | some target => branchValueRule target node.value

instance (arena : Arena) {c : TypeClassId} (node : Branch c) :
    Decidable (node.valueRule arena) :=
  match h : arena.deref node.branchTarget with
  | none => isFalse (by simp [Branch.valueRule, h])
  | some target =>
    if rule : branchValueRule target node.value then
      isTrue (by simpa [Branch.valueRule, h] using rule)
    else
      isFalse (by simpa [Branch.valueRule, h] using rule)

/-- The category of the payload of arm number `i`, when there is such an arm. -/
def armPayloadClass (arms : List SwitchArm) (i : Nat) : Option TypeClassId :=
  arms[i]?.map (fun arm => arm.value.cls)

/-- The positional rule of the switch arms on a category, a count and an array:
each of the first `numArms` arms is there, the last of them has a payload of
category `c` and the others have a payload of the Void category. -/
def armPayloadsPositional (c : TypeClassId) (numArms : Nat) (arms : List SwitchArm) : Prop :=
  ∀ i, i < numArms →
    armPayloadClass arms i = some (if i + 1 = numArms then c else TypeClassId.Void)

instance (c : TypeClassId) (numArms : Nat) (arms : List SwitchArm) :
    Decidable (armPayloadsPositional c numArms arms) :=
  inferInstanceAs (Decidable (∀ i, i < numArms → _))

/-- The positional rule of the switch arms on a node. -/
def Switch.armsPositional {c : TypeClassId} (node : Switch c) : Prop :=
  armPayloadsPositional c node.numArms.val node.arms

instance {c : TypeClassId} (node : Switch c) : Decidable node.armsPositional :=
  inferInstanceAs (Decidable (armPayloadsPositional c node.numArms.val node.arms))

/-- The default-arm index of a switch designates one of its arms. -/
def Switch.defaultArmInRange {c : TypeClassId} (node : Switch c) : Prop :=
  node.defaultArmIndex.val < node.numArms.val

instance {c : TypeClassId} (node : Switch c) : Decidable node.defaultArmInRange :=
  inferInstanceAs (Decidable (node.defaultArmIndex.val < node.numArms.val))

/-- The type tag of a node, where the node itself fixes it: a literal has the
type it is instantiated with. -/
def Expression.typeId? {c : TypeClassId} : Expression c → Option TypeId
  | @Expression.Literal type _ => some type
  | _ => none

/-- The function index of a `CallIndirect` is of the 32-bit integer type, as
far as the node that computes it fixes its own type. -/
def CallIndirect.functionIndexIsI32 {c : TypeClassId} (node : CallIndirect c) : Prop :=
  ∀ type ∈ node.functionIndex.typeId?, type = TypeId.I32

instance {c : TypeClassId} (node : CallIndirect c) : Decidable node.functionIndexIsI32 :=
  inferInstanceAs (Decidable (∀ type ∈ node.functionIndex.typeId?, type = TypeId.I32))

/-- The type and the value of a literal; `none` for every other node. -/
def Expression.literalValue? {c : TypeClassId} :
    Expression c → Option ((type : TypeId) × NativeType type)
  | @Expression.Literal type node => some ⟨type, node.value⟩
  | _ => none

/-! ## Concrete trees -/

/-- The further enumerators of the sample enumerations: eight tags, numbered
0 to 7, for every category. -/
def sampleCallerOps : TypeClassId → Nat → Bool := fun _ code =>
  decide (code < 8)

/-- A sample content of the enumerations: the declared tags, with eight further
tags for every category. -/
def sampleOps : LegalOps :=
  declaredOps sampleCallerOps

/-- The tag number `code` of the sample enumerations, for any category. -/
def sampleOp (c : TypeClassId) (code : Fin 8) : ClassOp sampleOps c :=
  ⟨.other code.val, by simp [sampleOps, declaredOps, sampleCallerOps]⟩

/-- The 32-bit integer literal of value `value`. -/
def i32Literal (value : Fin (2 ^ 32)) : Expression .Int :=
  @Expression.Literal .I32 (Literal.new .I32 value)

/-- The 64-bit integer literal of value `value`. -/
def i64Literal (value : Fin (2 ^ 64)) : Expression .Int :=
  @Expression.Literal .I64 (Literal.new .I64 value)

/-- The Bool literal of value `value`. -/
def boolLiteral (value : Bool) : Expression .Bool :=
  @Expression.Literal .Bool (Literal.new .Bool value)

/-- The no-op, as an expression of the Void category. -/
def nopExpression : Expression .Void :=
  Expression.Nop Nop.new

/-- The typed reference to the 32-bit literal 1, tagged `I32`. -/
def sampleKey : TypedExpression :=
  .mk .I32 (i32Literal 1).untyped

/-- The arena after the allocation of one target of type `type`. -/
def arenaWithTarget (type : TypeId) : Arena :=
  (Arena.empty.newBranchTarget type).2

/-- The pointer to the one target of `arenaWithTarget`. -/
def firstTarget (type : TypeId) : BranchTargetPtr :=
  (Arena.empty.newBranchTarget type).1

/-- The pointer that a second allocation returns, after `arenaWithTarget`. -/
def secondTarget (type : TypeId) : BranchTargetPtr :=
  ((arenaWithTarget type).newBranchTarget type).1

/-- The 32-bit floating-point literal with the bit pattern `bits`. -/
def f32Literal (bits : Fin (2 ^ 32)) : Expression .Float :=
  @Expression.Literal .F32 (Literal.new .F32 bits)

/-- Three arms with the keys 0, 1 and 2: two no-ops and the literal 7. -/
def threeArms : List SwitchArm :=
  [.mk 0 nopExpression.untyped, .mk 1 nopExpression.untyped, .mk 2 (i32Literal 7).untyped]

/-- Two arms that both carry an integer literal. -/
def twoIntArms : List SwitchArm :=
  [.mk 0 (i32Literal 5).untyped, .mk 1 (i32Literal 7).untyped]

/-! ## Helper lemmas -/

/-- Widening a `uint32_t` to a `uintptr_t` keeps its value. -/
theorem uint32_t.toUIntPtr_val (x : uint32_t) : (uint32_t.toUIntPtr x).val = x.val := by
  have h : x.val < 2 ^ 64 := lt_trans x.isLt (by norm_num)
  show x.val % 2 ^ 64 = x.val
  exact Nat.mod_eq_of_lt h

/-- A record that is in the arena stays where it is when a target is allocated. -/
theorem Arena.deref_newBranchTarget_of_isSome (arena : Arena) (type : TypeId)
    (target : BranchTargetPtr) (h : (arena.deref target).isSome = true) :
    (arena.newBranchTarget type).2.deref target = arena.deref target := by
  have hlt : target.address < arena.branchTargets.length := by
    by_contra hge
    have hnone : arena.deref target = none := by
      simp only [Arena.deref]
      exact List.getElem?_eq_none (Nat.le_of_not_lt hge)
    rw [hnone] at h
    exact absurd h (by simp)
  simp only [Arena.deref, Arena.newBranchTarget]
  exact List.getElem?_append_left hlt

/-- The pointer that an allocation returns leads to the new record. -/
theorem Arena.deref_newBranchTarget_self (arena : Arena) (type : TypeId) :
    (arena.newBranchTarget type).2.deref (arena.newBranchTarget type).1 =
      some (BranchTarget.new type) := by
  simp [Arena.deref, Arena.newBranchTarget]

/-- The pointer that an allocation returns did not lead to a record before. -/
theorem Arena.deref_newBranchTarget_fresh (arena : Arena) (type : TypeId) :
    arena.deref (arena.newBranchTarget type).1 = none := by
  simp [Arena.deref, Arena.newBranchTarget]

/-! ## Typed references -/

/-- Claim C1: a typed reference that its constructor returns has the tag and
the reference it was built from, and its tag is the category of the referenced
node; it keeps that property when a `Cast`, a `DiscardResult`, a
`StoreVariable`, a `StoreMemory` or a `Switch` stores it. A pair whose tag is of
another category than the node is rejected, and so is every Int tag over the
Bool literal `true`. -/
theorem typed_reference_tag_is_category (category_legal_ops : LegalOps) (inType : TypeId)
    (inExpression : UntypedExpression) :
    (∀ typed, TypedExpression.new inType inExpression = some typed →
      typed.type = inType ∧ typed.expression = inExpression ∧ typed.tagMatches ∧
      (∀ c op, (Cast.new category_legal_ops c op typed).source.tagMatches) ∧
      (DiscardResult.new typed).expression.tagMatches ∧
      (∀ op index, (StoreVariable.new category_legal_ops op typed index).value.tagMatches) ∧
      (∀ far aligned address, (StoreMemory.new far aligned address typed).value.tagMatches) ∧
      (∀ c index count arms target,
        (Switch.new c typed index count arms target).key.tagMatches)) ∧
    (inType.cls ≠ inExpression.cls → TypedExpression.new inType inExpression = none) ∧
    (inType.cls = inExpression.cls →
      TypedExpression.new inType inExpression = some (.mk inType inExpression)) ∧
    (inType.cls = .Int → TypedExpression.new inType (boolLiteral true).untyped = none) := by
  refine ⟨?_, ?_, ?_, ?_⟩
  · intro typed h
    by_cases hcls : inType.cls = inExpression.cls
    · simp only [TypedExpression.new, hcls, if_true, Option.some.injEq] at h
      subst h
      have hm : (TypedExpression.mk inType inExpression).tagMatches := hcls
      exact ⟨rfl, rfl, hm, fun _ _ => hm, hm, fun _ _ => hm, fun _ _ _ => hm,
        fun _ _ _ _ _ => hm⟩
    · simp [TypedExpression.new, hcls] at h
  · intro hne
    simp [TypedExpression.new, hne]
  · intro heq
    simp [TypedExpression.new, heq]
  · intro hint
    have hne : inType.cls ≠ (boolLiteral true).untyped.cls := by
      rw [hint]
      decide
    simp [TypedExpression.new, hne]

/-- The constructor of typed references accepts the tag `I32` over the 32-bit
literal 42, the pair it returns is tagged with the category of the literal, and
it rejects the tag `I32` over the Bool literal `true`. -/
theorem typed_reference_tag_is_category_witness :
    TypedExpression.new .I32 (i32Literal 42).untyped =
        some (.mk .I32 (i32Literal 42).untyped) ∧
      (TypedExpression.mk .I32 (i32Literal 42).untyped).tagMatches ∧
      (Cast.new sampleOps .Float (sampleOp .Float 0)
        (.mk .I32 (i32Literal 42).untyped)).source.tagMatches ∧
      TypedExpression.new .I32 (boolLiteral true).untyped = none :=
  have h := typed_reference_tag_is_category sampleOps .I32 (i32Literal 42).untyped
  have hsome := h.1 (.mk .I32 (i32Literal 42).untyped) (h.2.2.1 rfl)
  ⟨h.2.2.1 rfl, hsome.2.2.1, hsome.2.2.2.1 .Float (sampleOp .Float 0), h.2.2.2 rfl⟩

/-! ## Branches -/

/-- The constructor of `Branch` checks nothing: a branch to a target of type
Void that carries a value, here a no-op, is built, and it breaks the rule that
a value is present exactly when the category of the target is not Void. -/
theorem branch_value_rule_counterexample :
    ¬ (Branch.new .Void (firstTarget .Void) (some nopExpression.untyped)).valueRule
        (arenaWithTarget .Void) := by
  decide

/-- Claim C2, amended: the constructor of `Branch` stores the target and the
optional value unchanged, so a `Branch` built from a target of the arena and a
value that obey the rule (value present exactly when the category of the target
is not Void, and of the category of the target when present) obeys the rule. -/
theorem Branch_new_keeps_value_rule (c : TypeClassId) (arena : Arena)
    (inBranchTarget : BranchTargetPtr) (inValue : Option UntypedExpression)
    (target : BranchTarget) (hderef : arena.deref inBranchTarget = some target)
    (hrule : branchValueRule target inValue) :
    (Branch.new c inBranchTarget inValue).branchTarget = inBranchTarget ∧
      (Branch.new c inBranchTarget inValue).value = inValue ∧
      (Branch.new c inBranchTarget inValue).valueRule arena ∧
      (((Branch.new c inBranchTarget inValue).value.isSome = true ↔
          target.type.cls ≠ .Void) ∧
        ∀ v ∈ (Branch.new c inBranchTarget inValue).value, v.cls = target.type.cls) := by
  refine ⟨rfl, rfl, ?_, hrule⟩
  show (match arena.deref inBranchTarget with
    | none => False
    | some target => branchValueRule target inValue)
  rw [hderef]
  exact hrule

/-- A branch to a target of type `I32` that carries the 32-bit literal 42: the
value is present, the category of the target is Int and the category of the
value is Int. -/
theorem Branch_new_keeps_value_rule_witness :
    (arenaWithTarget .I32).deref (firstTarget .I32) = some (BranchTarget.new .I32) ∧
      (Branch.new .Void (firstTarget .I32) (some (i32Literal 42).untyped)).valueRule
        (arenaWithTarget .I32) ∧
      (Branch.new .Void (firstTarget .I32) (some (i32Literal 42).untyped)).value.isSome = true ∧
      (BranchTarget.new .I32).type.cls = .Int ∧
      (i32Literal 42).untyped.cls = .Int :=
  have h := Branch_new_keeps_value_rule .Void (arenaWithTarget .I32) (firstTarget .I32)
    (some (i32Literal 42).untyped) (BranchTarget.new .I32) rfl (by decide)
  ⟨rfl, h.2.2.1, rfl, rfl, rfl⟩

/-! ## Switches -/

/-- The constructor of `Switch` checks nothing: a switch of the Int category
with two arms that both carry an integer literal is built, and its first arm
breaks the rule that every arm but the last has a payload of the Void
category. -/
theorem switch_arms_positional_counterexample :
    ¬ (Switch.new .Int sampleKey 0 2 twoIntArms (firstTarget .I32)).armsPositional := by
  decide

/-- Claim C3, amended: the constructor of `Switch` stores the count and the
arms unchanged, so a `Switch` of category `c` built from a count and from arms
that obey the positional rule (every arm below the count is there, the last of
them has a payload of category `c`, the others a payload of the Void category)
obeys the rule. -/
theorem Switch_new_keeps_arms_positional (c : TypeClassId) (inKey : TypedExpression)
    (inDefaultArmIndex : uintptr_t) (inNumArms : uint32_t) (inArms : List SwitchArm)
    (inEndTarget : BranchTargetPtr)
    (hrule : armPayloadsPositional c inNumArms.val inArms) :
    (Switch.new c inKey inDefaultArmIndex inNumArms inArms inEndTarget).arms = inArms ∧
      (Switch.new c inKey inDefaultArmIndex inNumArms inArms inEndTarget).numArms.val =
        inNumArms.val ∧
      (Switch.new c inKey inDefaultArmIndex inNumArms inArms inEndTarget).armsPositional := by
  refine ⟨rfl, uint32_t.toUIntPtr_val inNumArms, ?_⟩
  show armPayloadsPositional c (uint32_t.toUIntPtr inNumArms).val inArms
  rw [uint32_t.toUIntPtr_val]
  exact hrule

/-- A switch of the Int category with three arms of keys 0, 1 and 2, the default
arm being arm 1: arms 0 and 1 carry a no-op, arm 2 carries the literal 7, and
the payload categories are Void, Void and Int. -/
theorem Switch_new_keeps_arms_positional_witness :
    armPayloadsPositional .Int 3 threeArms ∧
      (Switch.new .Int sampleKey 1 3 threeArms (firstTarget .I32)).armsPositional ∧
      threeArms.map SwitchArm.key = [0, 1, 2] ∧
      List.map (armPayloadClass threeArms) [0, 1, 2] =
        [some .Void, some .Void, some .Int] :=
  ⟨by decide,
    (Switch_new_keeps_arms_positional .Int sampleKey 1 3 threeArms (firstTarget .I32)
      (by decide)).2.2,
    by decide, by decide⟩

/-- The constructor of `Switch` checks nothing: a switch with three arms and
the default-arm index 5 is built, and its default-arm index designates no
arm. -/
theorem switch_default_arm_counterexample :
    ¬ (Switch.new .Int sampleKey 5 3 threeArms (firstTarget .I32)).defaultArmInRange := by
  decide

/-- Claim C10, amended: the constructor of `Switch` stores the default-arm index
unchanged and the count with its value unchanged, so `numArms` is the count
that was passed, and a `Switch` built from an index below the count has its
default-arm index below `numArms`. -/
theorem Switch_new_keeps_default_arm_in_range (c : TypeClassId) (inKey : TypedExpression)
    (inDefaultArmIndex : uintptr_t) (inNumArms : uint32_t) (inArms : List SwitchArm)
    (inEndTarget : BranchTargetPtr) (hindex : inDefaultArmIndex.val < inNumArms.val) :
    (Switch.new c inKey inDefaultArmIndex inNumArms inArms inEndTarget).numArms.val =
        inNumArms.val ∧
      (Switch.new c inKey inDefaultArmIndex inNumArms inArms inEndTarget).defaultArmIndex =
        inDefaultArmIndex ∧
      (Switch.new c inKey inDefaultArmIndex inNumArms inArms inEndTarget).defaultArmInRange := by
  refine ⟨uint32_t.toUIntPtr_val inNumArms, rfl, ?_⟩
  show inDefaultArmIndex.val < (uint32_t.toUIntPtr inNumArms).val
  rw [uint32_t.toUIntPtr_val]
  exact hindex

/-- A switch with three arms and the default-arm index 1: `numArms` is 3 and
the default-arm index designates arm 1. -/
theorem Switch_new_keeps_default_arm_in_range_witness :
    (Switch.new .Int sampleKey 1 3 threeArms (firstTarget .I32)).numArms.val = 3 ∧
      (Switch.new .Int sampleKey 1 3 threeArms (firstTarget .I32)).defaultArmIndex = 1 ∧
      (Switch.new .Int sampleKey 1 3 threeArms (firstTarget .I32)).defaultArmInRange :=
  Switch_new_keeps_default_arm_in_range .Int sampleKey 1 3 threeArms (firstTarget .I32)
    (by decide)

/-! ## Operation tags -/

/-- The constructor of `CallIndirect` does not check the width of the function
index: a `CallIndirect` whose function index is a 64-bit literal is built, and
its function index is not of the 32-bit integer type. -/
theorem call_indirect_index_width_counterexample :
    ¬ (CallIndirect.new sampleOps .Int (sampleOp .Int 0) 0 (i64Literal 7)
        []).functionIndexIsI32 := by
  decide

/-- Claim C5, amended: the function index of a `CallIndirect` is the expression
that was passed, it is of the Int category, and it is never a node of the Float
category: the parameter of the constructor is an `Expression<IntClass>*`, and
no node of the Float category is behind such a pointer. The width of the index
is not checked. -/
theorem CallIndirect_function_index_is_int (category_legal_ops : LegalOps) (c : TypeClassId)
    (op : ClassOp category_legal_ops c) (inTableIndex : uint32_t)
    (inFunctionIndex : Expression .Int) (inParameters : List UntypedExpression) :
    (CallIndirect.new category_legal_ops c op inTableIndex inFunctionIndex
        inParameters).functionIndex = inFunctionIndex ∧
      (CallIndirect.new category_legal_ops c op inTableIndex inFunctionIndex
        inParameters).functionIndex.untyped.cls = .Int ∧
      (∀ e : UntypedExpression, e.cls = .Float →
        (CallIndirect.new category_legal_ops c op inTableIndex inFunctionIndex
          inParameters).functionIndex.untyped ≠ e) ∧
      (∀ e : UntypedExpression, e.cls = .Float →
        ¬ ∃ index : Expression .Int, index.untyped = e) := by
  have hreject : ∀ e : UntypedExpression, e.cls = .Float →
      ∀ index : Expression .Int, index.untyped ≠ e := by
    intro e he index heq
    have hint : e.cls = .Int := by
      rw [← heq]
      rfl
    rw [hint] at he
    exact absurd he (by decide)
  refine ⟨rfl, rfl, fun e he => hreject e he _, ?_⟩
  intro e he hex
  obtain ⟨index, hindex⟩ := hex
  exact hreject e he index hindex

/-- A `CallIndirect` whose function index is the 32-bit literal 2: the index is
of the Int category and it is not the floating-point literal, which is of the
Float category. -/
theorem CallIndirect_function_index_is_int_witness :
    (f32Literal 0).untyped.cls = .Float ∧
      (CallIndirect.new sampleOps .Int (sampleOp .Int 0) 0 (i32Literal 2)
        []).functionIndex.untyped.cls = .Int ∧
      (CallIndirect.new sampleOps .Int (sampleOp .Int 0) 0 (i32Literal 2)
        []).functionIndex.untyped ≠ (f32Literal 0).untyped :=
  have h := CallIndirect_function_index_is_int sampleOps .Int (sampleOp .Int 0) 0
    (i32Literal 2) []
  ⟨rfl, h.2.1, h.2.2.1 (f32Literal 0).untyped rfl⟩

/-! ## Blocks and literals -/

/-- Claim C6: a `Block` reads back as it was built: its `voidExpressions`, its
`numVoidExpressions` and its `resultExpression` are the arguments of the
constructor, for every sequence, every count and every result; and the value of
the `Literal` built from a native value is that value. -/
theorem Block_new_reads_back (c : TypeClassId) (inVoidExpressions : List (Expression .Void))
    (inNumVoidExpressions : size_t) (inResultExpression : Expression c) (type : TypeId)
    (inValue : NativeType type) :
    (Block.new c inVoidExpressions inNumVoidExpressions inResultExpression).voidExpressions =
        inVoidExpressions ∧
      (Block.new c inVoidExpressions inNumVoidExpressions
        inResultExpression).numVoidExpressions = inNumVoidExpressions ∧
      (Block.new c inVoidExpressions inNumVoidExpressions inResultExpression).resultExpression =
        inResultExpression ∧
      (Literal.new type inValue).value = inValue ∧
      (@Expression.Literal type (Literal.new type inValue)).literalValue? =
        some ⟨type, inValue⟩ :=
  ⟨rfl, rfl, rfl, rfl, rfl⟩

/-- A `Block` with no Void subexpression and the 32-bit literal 5 as its
result: the result reads back as the literal of type `I32` and value 5. -/
theorem Block_new_reads_back_witness :
    (Block.new .Int [] 0 (i32Literal 5)).voidExpressions = [] ∧
      (Block.new .Int [] 0 (i32Literal 5)).resultExpression.literalValue? =
        some ⟨.I32, (5 : Fin (2 ^ 32))⟩ :=
  have h := Block_new_reads_back .Int [] 0 (i32Literal 5) .I32 (5 : Fin (2 ^ 32))
  ⟨h.1, (congrArg Expression.literalValue? h.2.2.1).trans h.2.2.2.2⟩

/-! ## Loops and the identity of branch targets -/

/-- The constructor of `Loop` checks nothing: a loop built with one and the same
pointer for both targets has a break target that is its continue target. -/
theorem loop_targets_counterexample :
    ¬ ((Loop.new .Void nopExpression (firstTarget .Void) (firstTarget .Void)).breakTarget ≠
        (Loop.new .Void nopExpression (firstTarget .Void)
          (firstTarget .Void)).continueTarget) := by
  decide

/-- Claim C7, amended: the constructor of `Loop` stores the two pointers
unchanged, so a `Loop` built from two distinct branch targets has a break
target and a continue target that are distinct. -/
theorem Loop_new_keeps_targets_distinct (c : TypeClassId) (inExpression : Expression .Void)
    (inBreakTarget : BranchTargetPtr) (inContinueTarget : BranchTargetPtr)
    (hdistinct : inBreakTarget ≠ inContinueTarget) :
    (Loop.new c inExpression inBreakTarget inContinueTarget).breakTarget = inBreakTarget ∧
      (Loop.new c inExpression inBreakTarget inContinueTarget).continueTarget =
        inContinueTarget ∧
      (Loop.new c inExpression inBreakTarget inContinueTarget).breakTarget ≠
        (Loop.new c inExpression inBreakTarget inContinueTarget).continueTarget :=
  ⟨rfl, rfl, hdistinct⟩

/-- A loop built from the pointers of two allocations, which no branch refers
to: its break target and its continue target are distinct. -/
theorem Loop_new_keeps_targets_distinct_witness :
    firstTarget .Void ≠ secondTarget .Void ∧
      (Loop.new .Void nopExpression (firstTarget .Void) (secondTarget .Void)).breakTarget ≠
        (Loop.new .Void nopExpression (firstTarget .Void)
          (secondTarget .Void)).continueTarget :=
  ⟨by decide,
    (Loop_new_keeps_targets_distinct .Void nopExpression (firstTarget .Void)
      (secondTarget .Void) (by decide)).2.2⟩

/-- Claim C8: branch targets are compared by their address, not by their
content. Two targets allocated one after the other with the same type get
different pointers, although both records are then in the arena with the same
content; the pointer of a new target differs from every pointer that already
leads to a record, and every such record stays in place; and two pointers are
the same target exactly when they are the same address. -/
theorem branch_targets_compared_by_identity (arena : Arena) (type : TypeId) :
    (arena.newBranchTarget type).1 ≠
        ((arena.newBranchTarget type).2.newBranchTarget type).1 ∧
      ((arena.newBranchTarget type).2.newBranchTarget type).2.deref
          (arena.newBranchTarget type).1 = some (BranchTarget.new type) ∧
      ((arena.newBranchTarget type).2.newBranchTarget type).2.deref
          ((arena.newBranchTarget type).2.newBranchTarget type).1 =
        some (BranchTarget.new type) ∧
      (∀ target : BranchTargetPtr, (arena.deref target).isSome = true →
        (arena.newBranchTarget type).1 ≠ target ∧
          (arena.newBranchTarget type).2.deref target = arena.deref target) ∧
      (∀ first second : BranchTargetPtr, first = second ↔ first.address = second.address) := by
  have hfresh : ∀ (a : Arena) (target : BranchTargetPtr), (a.deref target).isSome = true →
      (a.newBranchTarget type).1 ≠ target := by
    intro a target hsome heq
    rw [← heq, Arena.deref_newBranchTarget_fresh] at hsome
    exact absurd hsome (by simp)
  have hfirst : ((arena.newBranchTarget type).2.deref (arena.newBranchTarget type).1).isSome =
      true := by
    rw [Arena.deref_newBranchTarget_self]
    rfl
  refine ⟨?_, ?_, Arena.deref_newBranchTarget_self _ type, ?_, ?_⟩
  · exact fun h => hfresh (arena.newBranchTarget type).2 _ hfirst h.symm
  · rw [Arena.deref_newBranchTarget_of_isSome _ type _ hfirst]
    exact Arena.deref_newBranchTarget_self arena type
  · intro target hsome
    exact ⟨hfresh arena target hsome, Arena.deref_newBranchTarget_of_isSome arena type target hsome⟩
  · intro first second
    constructor
    · intro h
      rw [h]
    · intro h
      cases first
      cases second
      simp only [BranchTargetPtr.mk.injEq]
      exact h

/-- Two targets of type `I32` allocated in an empty arena: the pointers differ,
both records are in the arena and are equal, and the second allocation leaves
the first record in place. -/
theorem branch_targets_compared_by_identity_witness :
    firstTarget .I32 ≠ secondTarget .I32 ∧
      ((arenaWithTarget .I32).newBranchTarget .I32).2.deref (firstTarget .I32) =
        ((arenaWithTarget .I32).newBranchTarget .I32).2.deref (secondTarget .I32) ∧
      ((arenaWithTarget .I32).deref (firstTarget .I32)).isSome = true ∧
      ((arenaWithTarget .I32).newBranchTarget .I32).2.deref (firstTarget .I32) =
        (arenaWithTarget .I32).deref (firstTarget .I32) :=
  have h := branch_targets_compared_by_identity Arena.empty .I32
  have hkeep := (branch_targets_compared_by_identity (arenaWithTarget .I32) .I32).2.2.2.1
    (firstTarget .I32) rfl
  ⟨h.1, h.2.1.trans h.2.2.1.symm, rfl, hkeep.2⟩

/-! ## Error nodes -/

/-- Claim C9: for every category and every message, the `Error` node built from
the message carries the tag `error` and the message unchanged; its tag differs
from the tag `nop` of a `Nop` node, so the node is not a `Nop` node, neither as
an expression of the Void category nor behind an untyped reference. -/
theorem Error_new_is_not_nop (c : TypeClassId) (message : String) :
    (Error.new c message).op = .error ∧
      (Error.new c message).message = message ∧
      Nop.new.op = .nop ∧
      (Expression.Error (Error.new c message)).op ≠ (Expression.Nop Nop.new).op ∧
      Expression.Error (Error.new .Void message) ≠ Expression.Nop Nop.new ∧
      (Expression.Error (Error.new c message)).untyped ≠ (Expression.Nop Nop.new).untyped := by
  have htags : Op.error ≠ Op.nop := by decide
  refine ⟨rfl, rfl, rfl, htags, ?_, ?_⟩
  · intro h
    exact htags (congrArg Expression.op h)
  · intro h
    exact htags (congrArg UntypedExpression.op h)

end AST
